import Mathlib

/-!
# Verification of the multi-strategy media acquisition pipeline

Shallow embedding of the Python sources of the `video-downloader`
repository (`src/config.py`, `src/optimized_video_downloader.py`,
`src/video_downloader.py`) and proofs about the embedded functions.

Strings are embedded as `List Char` (`Str`) so that every operation is a
plain computable function the kernel can evaluate.
-/

/-- Character lists stand in for Python strings. -/
abbrev Str := List Char

/-- Python `pat in s` (substring test). -/
def strContains (pat : Str) : Str → Bool
  | [] => pat.isEmpty
  | c :: rest => List.isPrefixOf pat (c :: rest) || strContains pat rest

/-- Python `s.split(pat)[0]`: the part of `s` before the first occurrence of
`pat` (all of `s` when `pat` never occurs).  `pat` is assumed non-empty, as
at every call site in the source. -/
def splitFirstBefore (pat : Str) : Str → Str
  | [] => []
  | c :: rest =>
    if List.isPrefixOf pat (c :: rest) then [] else c :: splitFirstBefore pat rest

/-- Python `s.split(sep)` for a one-character separator. -/
def splitChar (sep : Char) : Str → List Str
  | [] => [[]]
  | c :: rest =>
    if c = sep then [] :: splitChar sep rest
    else
      match splitChar sep rest with
      | [] => [[c]]
      | p :: ps => (c :: p) :: ps

/-- Python `s.strip()`: drop leading and trailing whitespace. -/
def stripStr (s : Str) : Str :=
  ((s.dropWhile Char.isWhitespace).reverse.dropWhile Char.isWhitespace).reverse

/-- Index of the last `'.'` in a name (Python `name.rfind('.')`), if any. -/
def rfindDot : Str → Option Nat
  | [] => none
  | c :: rest =>
    match rfindDot rest with
    | some i => some (i + 1)
    | none => if c = '.' then some 0 else none

/-- Python `pathlib.Path(name).suffix`: the final extension including the dot;
empty when the last dot is the first or last character or there is none. -/
def pathSuffix (name : Str) : Str :=
  match rfindDot name with
  | none => []
  | some i => if 0 < i ∧ i < name.length - 1 then name.drop i else []

/-- Python `pathlib.Path(name).stem`: the name with its final suffix removed. -/
def pathStem (name : Str) : Str :=
  name.take (name.length - (pathSuffix name).length)

/-- Python `s.lower()` (per character). -/
def strLower (s : Str) : Str := s.map Char.toLower

/-- Decimal digits to a natural number. -/
def digitsToNat (s : Str) : Nat :=
  s.foldl (fun n c => 10 * n + (c.toNat - '0'.toNat)) 0

/-- Python `int(s)` restricted to the shapes that occur in `ffprobe`
output: an optional leading `'-'` followed by decimal digits; anything
else (for example `N/A` or the empty string) raises, i.e. yields `none`. -/
def parseIntStr (s : Str) : Option Int :=
  match s with
  | '-' :: rest =>
    if rest ≠ [] ∧ rest.all Char.isDigit then some (-(digitsToNat rest : Int)) else none
  | _ =>
    if s ≠ [] ∧ s.all Char.isDigit then some (digitsToNat s : Int) else none

/-- What follows the first occurrence of `pat` in `s`, if `pat` occurs. -/
def afterFirstOcc (pat : Str) : Str → Option Str
  | [] => if pat.isEmpty then some [] else none
  | c :: rest =>
    if List.isPrefixOf pat (c :: rest) then some ((c :: rest).drop pat.length)
    else afterFirstOcc pat rest

/-- Python `urllib.parse.urlparse(url).netloc` for `http(s)` URLs: the part after
the first `"://"` up to the first `'/'`, `'?'` or `'#'` (empty when the URL
has no `"://"`).  Used to state the spec-side, host-based classifier. -/
def urlHost (url : Str) : Str :=
  match afterFirstOcc ("://".toList) url with
  | none => []
  | some rest => rest.takeWhile (fun c => !(c == '/') && !(c == '?') && !(c == '#'))

/-!
## Site classification (`VideoDownloaderConfig.supported_sites`,
`OptimizedVideoDownloader.detect_site`, `DownloaderConfig.detect_site`)
-/

/-- The static profile table of `optimized_video_downloader.py`
(`supported_sites`), in insertion order: site name and domain fragment. -/
def supportedSites : List (String × Str) :=
  [("bilibili", "bilibili.com".toList),
   ("sohu", "sohu.com".toList),
   ("360kan", "360kan.com".toList)]

/-- Embeds `OptimizedVideoDownloader.detect_site` / `SiteHandler.detect_site`:
the first site whose domain fragment occurs as a substring of the whole
URL string (`if info['domain'] in url`), else `'unknown'`. -/
def detectSite (url : Str) : String :=
  match supportedSites.find? (fun p => strContains p.2 url) with
  | some p => p.1
  | none => "unknown"

/-- Follows the spec's words for comparison with `detectSite` (claim C3):
match each profile's domain fragment against the URL's HOST only, in the
same insertion order, first match wins. -/
def detectSiteHostSpec (url : Str) : String :=
  match supportedSites.find? (fun p => strContains p.2 (urlHost url)) with
  | some p => p.1
  | none => "unknown"

/-!
## Task results and the per-site strategy chain
(`DownloadResult`, `BilibiliHandler.download`, `SohuHandler.download`,
`Kan360Handler.download`, `OptimizedVideoDownloader.download_single_video`)
-/

/-- Embeds `DownloadResult` of `optimized_video_downloader.py` (the timing and
size fields, which only record wall-clock measurements, are omitted). -/
structure DownloadResult where
  url : Str
  site : String
  status : String
  files : List Str
  errorMessage : String
deriving DecidableEq

/-- Embeds `DownloadResult.__init__`: status `'pending'`, no files, no error. -/
def initResult (url : Str) (site : String) : DownloadResult :=
  { url := url, site := site, status := "pending", files := [], errorMessage := "" }

/-- Outcome of one `yt-dlp` subprocess attempt for one format string:
exit status 0, a non-zero exit (stderr only logged), a
`subprocess.TimeoutExpired`, or some other exception. -/
inductive StratOutcome where
  | ok : StratOutcome
  | fail : String → StratOutcome
  | timeout : StratOutcome
  | exn : String → StratOutcome
deriving DecidableEq

/-- The error message written on `subprocess.TimeoutExpired`
(`f"下载超时 (>{self.config.timeout}s)"` with the default timeout 180). -/
def timeoutMsg : String := "下载超时 (>180s)"

/-- Effect of one failed attempt on the result record: a non-zero exit is
only logged, a timeout or exception overwrites `error_message`. -/
def applyOutcome (r : DownloadResult) : StratOutcome → DownloadResult
  | .ok => { r with status := "success" }
  | .fail _ => r
  | .timeout => { r with errorMessage := timeoutMsg }
  | .exn m => { r with errorMessage := m }

/-- The shared body of `BilibiliHandler.download`, `SohuHandler.download`
and `Kan360Handler.download`: walk the profile's format list in order,
stop at the first attempt whose subprocess exits 0 (status `'success'`,
return `True`); when the list is exhausted set status `'failed'` and
return `False`.  `attempt` maps a format string to the outcome of its
subprocess run.  Besides the returned flag and the mutated result, the
embedding also returns the list of formats actually attempted, in order,
so that the chain's traversal order can be stated. -/
def handlerDownload (attempt : String → StratOutcome) :
    List String → DownloadResult → Bool × DownloadResult × List String
  | [], r => (false, { r with status := "failed" }, [])
  | f :: rest, r =>
    match attempt f with
    | .ok => (true, { r with status := "success" }, [f])
    | o =>
      let next := handlerDownload attempt rest (applyOutcome r o)
      (next.1, next.2.1, f :: next.2.2)

/-- Format chains declared in `VideoDownloaderConfig.supported_sites`. -/
def bilibiliFormats : List String := ["100024+30280", "100023+30232", "100022+30216"]

/-- Sohu format chain from `VideoDownloaderConfig.supported_sites`. -/
def sohuFormats : List String := ["best", "worst"]

/-- 360kan format chain from `VideoDownloaderConfig.supported_sites`. -/
def kan360Formats : List String := ["best", "worst"]

/-- Embeds `OptimizedVideoDownloader.setup_handlers`: the handler table, keyed by
site name; each handler runs `handlerDownload` over its format chain. -/
def handlerTable : List (String × List String) :=
  [("bilibili", bilibiliFormats), ("sohu", sohuFormats), ("360kan", kan360Formats)]

/-- Result of `download_single_video` together with whether a site handler
(and hence the `yt-dlp` subprocess / network) was invoked at all. -/
structure SingleOutcome where
  result : DownloadResult
  handlerInvoked : Bool
deriving DecidableEq

/-- Embeds `OptimizedVideoDownloader.download_single_video`: classify the URL;
on `'unknown'` fail immediately without touching any handler; otherwise
look the handler up and run its download chain.  `attempt site format`
is the outcome of the subprocess run for that site and format. -/
def downloadSingleVideo (attempt : String → String → StratOutcome) (url : Str) :
    SingleOutcome :=
  let site := detectSite url
  let r0 := initResult url site
  if site = "unknown" then
    { result := { r0 with status := "failed", errorMessage := "不支持的网站类型" },
      handlerInvoked := false }
  else
    match handlerTable.lookup site with
    | some formats =>
      { result := (handlerDownload (attempt site) formats r0).2.1, handlerInvoked := true }
    | none =>
      let rNoHandler :=
        { r0 with status := "failed", errorMessage := "没有找到 " ++ site ++ " 的处理器" }
      { result := rNoHandler, handlerInvoked := false }

/-!
## Batch report (`OptimizedVideoDownloader.generate_summary_report`)
-/

/-- The aggregate fields of the report dictionary built by
`generate_summary_report` (wall-clock time and the result dump omitted). -/
structure SummaryReport where
  totalVideos : Nat
  successCount : Nat
  failedCount : Nat
  successRate : ℚ

/-- Embeds `generate_summary_report`: `success_count` counts results whose status
is `'success'`, `failed_count` is the remainder, and the rate is
`success_count / len(results) * 100` (0 for an empty batch). -/
def generateSummaryReport (results : List DownloadResult) : SummaryReport :=
  let sc := (results.filter (fun r => r.status == "success")).length
  { totalVideos := results.length
    successCount := sc
    failedCount := results.length - sc
    successRate := if results.isEmpty then 0 else (sc : ℚ) / (results.length : ℚ) * 100 }

/-!
## Stream reconciliation (`VideoDownloader._post_process_downloaded_files`,
`VideoDownloader._merge_video_audio`)
-/

/-- Video-variant test of `_post_process_downloaded_files`: extension in
`['.mp4', '.mkv', '.webm', '.avi']` (lower-cased) and `'.f'` in the name. -/
def isVideoVariant (name : Str) : Bool :=
  (["mp4", "mkv", "webm", "avi"].map (fun e => '.' :: e.toList)).contains
      (strLower (pathSuffix name))
    && strContains ('.' :: ['f']) name

/-- Audio-variant test of `_post_process_downloaded_files`: extension in
`['.m4a', '.mp3', '.aac', '.wav']` (lower-cased) and `'.f'` in the name. -/
def isAudioVariant (name : Str) : Bool :=
  (["m4a", "mp3", "aac", "wav"].map (fun e => '.' :: e.toList)).contains
      (strLower (pathSuffix name))
    && strContains ('.' :: ['f']) name

/-- Whole-file test of `_post_process_downloaded_files`: extension `.mp4`
and no `'.f'` marker in the name. -/
def isWholeMp4 (name : Str) : Bool :=
  (strLower (pathSuffix name) == '.' :: "mp4".toList) && !(strContains ('.' :: ['f']) name)

/-- Python `name.endswith('.log')` (log files are skipped by the scan). -/
def isLogName (name : Str) : Bool :=
  List.isSuffixOf ('.' :: "log".toList) name

/-- Logical identity of a variant file: `Path(name).stem.split('.f')[0]`. -/
def baseOf (name : Str) : Str :=
  splitFirstBefore ('.' :: ['f']) (pathStem name)

/-- Name of the merged output written by `_merge_video_audio`:
`f"{filename_stem}_merged.mp4"`. -/
def mergedName (base : Str) : Str :=
  base ++ "_merged.mp4".toList

/-- Embeds `_post_process_downloaded_files` on a destination directory holding
the regular files `files`: classify the files, and when at least one
video variant and one audio variant exist, pair each video variant with
the FIRST audio variant sharing its logical identity and invoke the
`ffmpeg` merge on the pair.  `mergeOk v a` tells whether that subprocess
exits 0; on success `_merge_video_audio` deletes both sources and its
output appears in the directory.  Returns the resulting directory
contents and the list of merge invocations. -/
def postProcess (mergeOk : Str → Str → Bool) (files : List Str) :
    List Str × List (Str × Str) :=
  let reg := files.filter (fun f => !(isLogName f))
  let videoFiles := reg.filter isVideoVariant
  let audioFiles := reg.filter isAudioVariant
  let pairs :=
    if videoFiles ≠ [] ∧ audioFiles ≠ [] then
      videoFiles.filterMap
        (fun v => (audioFiles.find? (fun a => baseOf a == baseOf v)).map (fun a => (v, a)))
    else []
  let succ := pairs.filter (fun p => mergeOk p.1 p.2)
  let deleted := succ.foldr (fun p acc => p.1 :: p.2 :: acc) []
  (files.filter (fun f => !(deleted.contains f)) ++ succ.map (fun p => mergedName (baseOf p.1)),
   pairs)

/-!
## Audio verification and repair (`VideoDownloader._verify_and_fix_audio`,
`VideoDownloader._fix_audio_stream`)
-/

/-- The CSV field list `_verify_and_fix_audio` parses from the `ffprobe`
output: `result.stdout.strip().split(',')`. -/
def audioInfoOf (stdout : Str) : List Str :=
  splitChar ',' (stripStr stdout)

/-- Sample-rate field: `audio_info[1]` (guarded by `len(audio_info) >= 3`). -/
def srField (info : List Str) : Str := info.getD 1 []

/-- Bitrate field: `audio_info[3] if len(audio_info) > 3 else '0'`. -/
def brField (info : List Str) : Str :=
  if 3 < info.length then info.getD 3 [] else ['0']

/-- The `needs_fix` computation of `_verify_and_fix_audio`, given the
parsed field list (already known to have at least 3 fields): an
unparseable bitrate or a bitrate below 64000 flags the file; a parseable
sample rate below 22050 flags it; an unparseable sample rate does not. -/
def needsFixOfInfo (info : List Str) : Bool :=
  if info.length < 3 then false
  else
    let brBad :=
      match parseIntStr (brField info) with
      | none => true
      | some b => decide (b < 64000)
    let srBad :=
      match parseIntStr (srField info) with
      | none => false
      | some s => decide (s < 22050)
    brBad || srBad

/-- Embeds `_verify_and_fix_audio`'s decision whether `_fix_audio_stream` is
invoked, from the `ffprobe` exit status and raw stdout: a non-zero exit
or empty (stripped) stdout returns early WITHOUT repairing; otherwise the
parsed fields decide. -/
def verifyDecide (rc : Int) (stdout : Str) : Bool :=
  if rc ≠ 0 ∨ stripStr stdout = [] then false
  else needsFixOfInfo (audioInfoOf stdout)

/-- Modelled from the spec's words for comparison with `verifyDecide`
(claim C6): flagged iff the file has no audio stream, or an unreadable
bitrate, or a bitrate below 64 kbps, or a sample rate below 22050 Hz. -/
def audioFlagSpec (rc : Int) (stdout : Str) : Bool :=
  let info := audioInfoOf stdout
  let noStream := !(rc == 0) || (stripStr stdout).isEmpty
  let brUnreadable := (parseIntStr (brField info)).isNone
  let brLow :=
    match parseIntStr (brField info) with
    | some b => decide (b < 64000)
    | none => false
  let srLow :=
    match parseIntStr (srField info) with
    | some s => decide (s < 22050)
    | none => false
  noStream || brUnreadable || brLow || srLow

/-- Embeds `_fix_audio_stream` observed through the final content of the file:
when the `ffmpeg` re-encode exits 0 the original is removed and the fixed
sibling renamed over it (content becomes `reencoded`); otherwise the
failed output is discarded and the original kept. -/
def fixAudioStream {α : Type} (ffmpegOk : Bool) (reencoded orig : α) : α :=
  if ffmpegOk then reencoded else orig

/-- Embeds `_verify_and_fix_audio` end to end, observed through the final content
of the probed file: repair runs exactly when `verifyDecide` flags it. -/
def verifyAndFixFile {α : Type} (rc : Int) (stdout : Str) (ffmpegOk : Bool)
    (reencoded orig : α) : α :=
  if verifyDecide rc stdout then fixAudioStream ffmpegOk reencoded orig else orig

/-!
## Filename sanitisation and extracted titles
(`VideoDownloader._sanitize_filename` and its call sites in the
extraction handlers)
-/

/-- The characters removed by `re.sub(r'[<>:"/\\|?*]', '', filename)`. -/
def illegalChars : List Char := ['<', '>', ':', '"', '/', '\\', '|', '?', '*']

/-- Embeds `_sanitize_filename` before the final `.strip()`: remove the illegal
characters, then truncate to 100 characters. -/
def sanitizeStage (s : Str) : Str :=
  (s.filter (fun c => !(illegalChars.contains c))).take 100

/-- Embeds `VideoDownloader._sanitize_filename`: remove illegal characters,
truncate to 100 characters, strip surrounding whitespace. -/
def sanitizeFilename (s : Str) : Str :=
  stripStr (sanitizeStage s)

/-- Title construction of `_extract_bilibili_video` (and the `yt-dlp`
paths of `_extract_pinshan_video` / `_extract_baidu_video`): the raw
extracted title passed through the sanitizer. -/
def extractedTitle (rawTitle : Str) : Str :=
  sanitizeFilename rawTitle

/-- Title construction of `_manual_extract_pinshan` /
`_manual_extract_baidu`: `self._sanitize_filename(title_tag.string.strip())`. -/
def manualPageTitle (rawTitle : Str) : Str :=
  sanitizeFilename (stripStr rawTitle)

/-!
## Fetching (`VideoDownloader._download_file`,
`VideoDownloader._download_with_ytdlp`)
-/

/-- The `video_info` dictionary consumed by `_download_file`. -/
structure VideoInfo where
  title : Str
  url : Str
  ext : Str
deriving DecidableEq

/-- The video info built by `_extract_bilibili_video`: sanitized title,
the media URL resolved from the page, extension `mp4`. -/
def bilibiliVideoInfo (rawTitle mediaUrl : Str) : VideoInfo :=
  { title := extractedTitle rawTitle, url := mediaUrl, ext := "mp4".toList }

/-- One network/subprocess step taken by `_download_file`. -/
inductive FetchStep where
  | direct : Str → FetchStep
  | ytdlpFallback : Str → FetchStep
deriving DecidableEq

/-- Control flow of `_download_file`: first a direct streamed GET of
`video_info['url']`; if that raises for any reason, fall back to
`_download_with_ytdlp(video_url, filepath)` — invoked on the SAME
`video_info['url']` (the function never sees the task's page URL). -/
def downloadFileTrace (directOk : Bool) (info : VideoInfo) : List FetchStep :=
  if directOk then [.direct info.url]
  else [.direct info.url, .ytdlpFallback info.url]

/-- How `error_message` evolves along a list of attempt outcomes: each
timeout or exception overwrites it, every other outcome leaves it as it
was.  Used to state what the final error message of a handler run is. -/
def lastMsgFold (init : String) : List StratOutcome → String
  | [] => init
  | o :: rest =>
    lastMsgFold
      (match o with
       | .timeout => timeoutMsg
       | .exn m => m
       | _ => init) rest

/-!
## Theorems
-/

/-- Stripping whitespace only removes characters. -/
theorem mem_of_mem_stripStr {c : Char} {t : Str} (h : c ∈ stripStr t) : c ∈ t := by
  unfold stripStr at h
  rw [List.mem_reverse] at h
  have h2 : c ∈ (t.dropWhile Char.isWhitespace).reverse :=
    (List.dropWhile_sublist _).subset h
  rw [List.mem_reverse] at h2
  exact (List.dropWhile_sublist _).subset h2

/-- Claim C9 (confirmed): for every batch, including the empty one, the
report's succeeded count plus its failed count equals its total count,
and the success rate equals succeeded divided by total times 100, defined
as 0 for the empty batch. -/
theorem C9_batch_report_consistent (results : List DownloadResult) :
    (generateSummaryReport results).successCount + (generateSummaryReport results).failedCount
        = (generateSummaryReport results).totalVideos ∧
      (generateSummaryReport results).successRate =
        (if (generateSummaryReport results).totalVideos = 0 then 0
         else ((generateSummaryReport results).successCount : ℚ)
            / ((generateSummaryReport results).totalVideos : ℚ) * 100) := by
  constructor
  · exact Nat.add_sub_cancel' (List.length_filter_le _ _)
  · simp only [generateSummaryReport]
    cases results with
    | nil => simp
    | cons r rs => simp

/-- Claim C10 (confirmed): the filename sanitizer returns a string free of
the characters removed by its regular expression, its pre-strip stage has
length at most 100, and the titles produced by the extraction handlers
(which pass every manually extracted title through the sanitizer) are
free of those characters as well. -/
theorem C10_sanitize_filename (s : Str) :
    (sanitizeFilename s).all (fun c => !(illegalChars.contains c)) = true ∧
      (sanitizeStage s).length ≤ 100 ∧
      (extractedTitle s).all (fun c => !(illegalChars.contains c)) = true ∧
      (manualPageTitle s).all (fun c => !(illegalChars.contains c)) = true := by
  have hstage : ∀ t : Str, (sanitizeFilename t).all (fun c => !(illegalChars.contains c)) = true := by
    intro t
    rw [List.all_eq_true]
    intro c hc
    have h1 : c ∈ sanitizeStage t := mem_of_mem_stripStr hc
    have h2 : c ∈ (t.filter (fun c => !(illegalChars.contains c))) :=
      List.take_subset _ _ h1
    exact (List.mem_filter.mp h2).2
  refine ⟨hstage s, ?_, hstage s, hstage _⟩
  exact List.length_take_le _ _

/-- Claim C3 (counterexample): a URL whose host is `example.com` but whose
query string contains the fragment `bilibili.com` is classified as
`bilibili` by `detect_site`, while the spec's host-based matching yields
`unknown` — so classification does NOT match only the URL's host. -/
theorem C3_counterexample :
    detectSite ("https://example.com/a?x=bilibili.com".toList) = "bilibili" ∧
      detectSiteHostSpec ("https://example.com/a?x=bilibili.com".toList) = "unknown" ∧
      urlHost ("https://example.com/a?x=bilibili.com".toList) = "example.com".toList := by
  decide

/-- Claim C3 (amended): `detect_site` matches each profile's domain
fragment as a substring of the ENTIRE URL string, in the insertion order
of the static profile table, returns the first match, and returns
`unknown` otherwise; it is total, with no outcome other than the three
site names and `unknown`. -/
theorem C3_detect_site_whole_url (url : Str) :
    detectSite url =
        (if strContains ("bilibili.com".toList) url then "bilibili"
         else if strContains ("sohu.com".toList) url then "sohu"
         else if strContains ("360kan.com".toList) url then "360kan"
         else "unknown") ∧
      (detectSite url = "bilibili" ∨ detectSite url = "sohu" ∨ detectSite url = "360kan"
        ∨ detectSite url = "unknown") := by
  have h : detectSite url =
      (if strContains ("bilibili.com".toList) url then "bilibili"
       else if strContains ("sohu.com".toList) url then "sohu"
       else if strContains ("360kan.com".toList) url then "360kan"
       else "unknown") := by
    simp only [detectSite, supportedSites, List.find?]
    cases hb : strContains ("bilibili.com".toList) url <;>
      cases hs : strContains ("sohu.com".toList) url <;>
        cases hk : strContains ("360kan.com".toList) url <;> simp
  refine ⟨h, ?_⟩
  rw [h]
  split_ifs <;> simp

/-- Claim C7 (counterexample): when the direct stream of a resolved media
URL fails, the fallback invokes `yt-dlp` on `video_info['url']` — the
resolved media URL — and not on the task's page URL: at a bilibili-shaped
extraction result the fallback step carries the CDN URL, and no step
carries the page URL. -/
theorem C7_counterexample :
    downloadFileTrace false
          (bilibiliVideoInfo ("标题".toList) ("https://cdn.example.net/v123.mp4".toList))
        = [FetchStep.direct ("https://cdn.example.net/v123.mp4".toList),
           FetchStep.ytdlpFallback ("https://cdn.example.net/v123.mp4".toList)] ∧
      ("https://cdn.example.net/v123.mp4".toList : Str)
          ≠ "https://www.bilibili.com/video/BV1fp4y1m7Fz".toList ∧
      FetchStep.ytdlpFallback ("https://www.bilibili.com/video/BV1fp4y1m7Fz".toList)
          ∉ downloadFileTrace false
              (bilibiliVideoInfo ("标题".toList) ("https://cdn.example.net/v123.mp4".toList)) := by
  decide

/-- Claim C7 (amended): when the direct stream fails, `_download_file`
falls back to invoking `yt-dlp` in download mode against the RESOLVED
media URL `video_info['url']` (the same URL whose direct stream failed);
a fallback against any page URL happens only if that page URL happens to
equal the resolved media URL, and no fallback runs when the direct
stream succeeds. -/
theorem C7_fallback_uses_media_url (pageUrl : Str) (info : VideoInfo) :
    downloadFileTrace false info
        = [FetchStep.direct info.url, FetchStep.ytdlpFallback info.url] ∧
      (FetchStep.ytdlpFallback pageUrl ∈ downloadFileTrace false info ↔ pageUrl = info.url) ∧
      downloadFileTrace true info = [FetchStep.direct info.url] := by
  refine ⟨rfl, ?_, rfl⟩
  simp [downloadFileTrace]

/-- Claim C4 (counterexample): the URL `https://example.com/a?x=bilibili.com`
has a host that matches no configured domain fragment, yet the pipeline
does NOT classify it as unknown and DOES invoke a site handler (hence a
`yt-dlp` subprocess / network call). -/
theorem C4_counterexample :
    supportedSites.all
        (fun p => !(strContains p.2 (urlHost ("https://example.com/a?x=bilibili.com".toList))))
        = true ∧
      detectSite ("https://example.com/a?x=bilibili.com".toList) ≠ "unknown" ∧
      (downloadSingleVideo (fun _ _ => StratOutcome.fail "")
          ("https://example.com/a?x=bilibili.com".toList)).handlerInvoked = true := by
  decide

/-- Claim C4 (amended): for every URL that contains no configured domain
fragment as a substring ANYWHERE in the URL string, classification yields
`unknown` and `download_single_video` returns a failed result with the
unsupported-site message, without invoking any site handler (hence
without any network call). -/
theorem C4_no_fragment_fails_without_network (url : Str)
    (attempt : String → String → StratOutcome)
    (h : supportedSites.all (fun p => !(strContains p.2 url)) = true) :
    detectSite url = "unknown" ∧
      (downloadSingleVideo attempt url).result.status = "failed" ∧
      (downloadSingleVideo attempt url).result.errorMessage = "不支持的网站类型" ∧
      (downloadSingleVideo attempt url).handlerInvoked = false := by
  have hd : detectSite url = "unknown" := by
    unfold detectSite
    have hn : supportedSites.find? (fun p => strContains p.2 url) = none := by
      rw [List.find?_eq_none]
      intro p hp
      have := (List.all_eq_true.mp h) p hp
      simpa using this
    rw [hn]
  refine ⟨hd, ?_, ?_, ?_⟩ <;> simp [downloadSingleVideo, hd]

/-- Claim C4 (witness): a URL containing no configured fragment at all is
classified `unknown` and fails with no handler invocation. -/
theorem C4_witness :
    detectSite ("https://nope.example/x".toList) = "unknown" ∧
      (downloadSingleVideo (fun _ _ => StratOutcome.ok)
          ("https://nope.example/x".toList)).result.status = "failed" ∧
      (downloadSingleVideo (fun _ _ => StratOutcome.ok)
          ("https://nope.example/x".toList)).result.errorMessage = "不支持的网站类型" ∧
      (downloadSingleVideo (fun _ _ => StratOutcome.ok)
          ("https://nope.example/x".toList)).handlerInvoked = false :=
  C4_no_fragment_fails_without_network ("https://nope.example/x".toList)
    (fun _ _ => StratOutcome.ok) (by decide)

/-- Claim C1 (counterexample): a run of the bilibili handler whose first
`yt-dlp` attempt exits 0 produces a result with terminal status
`'success'` and an EMPTY `files` list — so the success-status invariant
(at least one recorded output file) fails. -/
theorem C1_counterexample :
    ((handlerDownload (fun _ => StratOutcome.ok) bilibiliFormats
          (initResult ("https://www.bilibili.com/video/BV1".toList) "bilibili")).2.1.status
        = "success") ∧
      ((handlerDownload (fun _ => StratOutcome.ok) bilibiliFormats
          (initResult ("https://www.bilibili.com/video/BV1".toList) "bilibili")).2.1.files
        = []) := by
  decide

/-- Claim C1 (amended): the pipeline never records any output file on a
result: every handler run leaves the `files` list of the result exactly
as it found it, and every result of `download_single_video` carries an
empty `files` list — in particular a result with status `'success'`
records no output file, success reflecting only the subprocess exit
status. -/
theorem C1_files_never_recorded :
    (∀ (attempt : String → StratOutcome) (formats : List String) (r : DownloadResult),
        ((handlerDownload attempt formats r).2.1).files = r.files) ∧
      (∀ (attempt : String → String → StratOutcome) (url : Str),
        (downloadSingleVideo attempt url).result.files = []) := by
  have hh : ∀ (attempt : String → StratOutcome) (formats : List String) (r : DownloadResult),
      ((handlerDownload attempt formats r).2.1).files = r.files := by
    intro attempt formats
    induction formats with
    | nil => intro r; rfl
    | cons f rest ih =>
      intro r
      cases h : attempt f <;> simp [handlerDownload, h, applyOutcome, ih]
  refine ⟨hh, ?_⟩
  intro attempt url
  by_cases hs : detectSite url = "unknown"
  · simp [downloadSingleVideo, hs, initResult]
  · cases hl : handlerTable.lookup (detectSite url) with
    | none => simp [downloadSingleVideo, hs, hl, initResult]
    | some fmts => simp [downloadSingleVideo, hs, hl, hh, initResult]

/-- Claim C6 (counterexample): a file with NO audio stream (the probe
exits 0 with empty output) is NOT flagged for repair by the code —
`_verify_and_fix_audio` returns early — although the claimed condition
flags it. -/
theorem C6_counterexample :
    verifyDecide 0 [] = false ∧ audioFlagSpec 0 [] = true := by
  decide

/-- Claim C6 (amended): a probed file is flagged for repair iff the probe
succeeds (exit status 0, non-empty output) AND reports at least three
fields AND (its bitrate is unreadable, or its bitrate is below 64 kbps,
or its sample rate is readable and below 22050 Hz); a file with no audio
stream, or with fewer than three probe fields, is skipped without
repair, and an unreadable sample rate alone does not flag the file. -/
theorem C6_flag_characterization (rc : Int) (stdout : Str) :
    verifyDecide rc stdout = true ↔
      (rc = 0 ∧ stripStr stdout ≠ [] ∧ 3 ≤ (audioInfoOf stdout).length ∧
        (parseIntStr (brField (audioInfoOf stdout)) = none ∨
          (∃ b, parseIntStr (brField (audioInfoOf stdout)) = some b ∧ b < 64000) ∨
          (∃ s', parseIntStr (srField (audioInfoOf stdout)) = some s' ∧ s' < 22050))) := by
  unfold verifyDecide
  split_ifs with h1
  · simp only [Bool.false_eq_true, false_iff]
    rintro ⟨hrc, hne, -, -⟩
    rcases h1 with h | h
    · exact h hrc
    · exact hne h
  · push_neg at h1
    obtain ⟨hrc, hne⟩ := h1
    unfold needsFixOfInfo
    split_ifs with h2
    · simp only [Bool.false_eq_true, false_iff]
      rintro ⟨-, -, hlen, -⟩
      omega
    · push_neg at h2
      simp only [Bool.or_eq_true]
      constructor
      · rintro (hbr | hsr)
        · refine ⟨hrc, hne, by omega, ?_⟩
          cases hp : parseIntStr (brField (audioInfoOf stdout)) with
          | none => exact Or.inl rfl
          | some b =>
            rw [hp] at hbr
            exact Or.inr (Or.inl ⟨b, rfl, of_decide_eq_true hbr⟩)
        · refine ⟨hrc, hne, by omega, ?_⟩
          cases hp : parseIntStr (srField (audioInfoOf stdout)) with
          | none => rw [hp] at hsr; exact absurd hsr (by simp)
          | some s' =>
            rw [hp] at hsr
            exact Or.inr (Or.inr ⟨s', rfl, of_decide_eq_true hsr⟩)
      · rintro ⟨-, -, -, (hnone | ⟨b, hb, hlt⟩ | ⟨s', hs, hlt⟩)⟩
        · left; rw [hnone]
        · left; rw [hb]; exact decide_eq_true hlt
        · right; rw [hs]; exact decide_eq_true hlt

/-- Claim C8 (confirmed): invoking audio verification/repair on a file
whose probed audio stream has a readable bitrate of at least 64 kbps and
a readable sample rate of at least 22050 Hz never alters the file: the
final content equals the original, whatever the repair subprocess would
have produced. -/
theorem C8_healthy_file_unaltered {α : Type} (rc : Int) (stdout : Str) (ffmpegOk : Bool)
    (reencoded orig : α) (b s' : Int)
    (hbr : parseIntStr (brField (audioInfoOf stdout)) = some b) (hble : 64000 ≤ b)
    (hsr : parseIntStr (srField (audioInfoOf stdout)) = some s') (hsle : 22050 ≤ s') :
    verifyAndFixFile rc stdout ffmpegOk reencoded orig = orig := by
  have hv : verifyDecide rc stdout = false := by
    unfold verifyDecide
    split_ifs with h1
    · rfl
    · unfold needsFixOfInfo
      split_ifs with h2
      · rfl
      · rw [hbr, hsr]
        have hb' : ¬ (b < 64000) := by omega
        have hs'' : ¬ (s' < 22050) := by omega
        simp [hb', hs'']
  simp [verifyAndFixFile, hv]

/-- Claim C8 (witness): a probe reporting `aac,44100,2,128000` is healthy
and the file content is left exactly as it was. -/
theorem C8_witness :
    verifyAndFixFile 0 ("aac,44100,2,128000".toList) true (1 : Nat) 0 = 0 :=
  C8_healthy_file_unaltered 0 ("aac,44100,2,128000".toList) true 1 0 128000 44100
    (by decide) (by decide) (by decide) (by decide)

/-- Unfolding lemma: a chain step whose attempt exits 0. -/
theorem handlerDownload_cons_ok (attempt : String → StratOutcome) (f : String)
    (rest : List String) (r : DownloadResult) (h : attempt f = StratOutcome.ok) :
    handlerDownload attempt (f :: rest) r = (true, { r with status := "success" }, [f]) := by
  simp [handlerDownload, h]

/-- Unfolding lemma: a chain step whose attempt does not exit 0. -/
theorem handlerDownload_cons_ne_ok (attempt : String → StratOutcome) (f : String)
    (rest : List String) (r : DownloadResult) (h : attempt f ≠ StratOutcome.ok) :
    handlerDownload attempt (f :: rest) r =
      ((handlerDownload attempt rest (applyOutcome r (attempt f))).1,
       (handlerDownload attempt rest (applyOutcome r (attempt f))).2.1,
       f :: (handlerDownload attempt rest (applyOutcome r (attempt f))).2.2) := by
  cases hf : attempt f <;> simp [handlerDownload, hf] at h ⊢

/-- The attempted-format trace is an initial segment of the declared
chain: the chain never reorders or skips ahead. -/
theorem handlerDownload_attempted_take (attempt : String → StratOutcome)
    (formats : List String) :
    ∀ r, (handlerDownload attempt formats r).2.2
      = formats.take (handlerDownload attempt formats r).2.2.length := by
  induction formats with
  | nil => intro r; rfl
  | cons f rest ih =>
    intro r
    by_cases hf : attempt f = StratOutcome.ok
    · rw [handlerDownload_cons_ok attempt f rest r hf]
      rfl
    · rw [handlerDownload_cons_ne_ok attempt f rest r hf]
      simpa using ih _

/-- When the run reports success, the attempted trace is some failed
strategies followed by exactly one succeeding strategy, and the result
status is `'success'`. -/
theorem handlerDownload_success_shape (attempt : String → StratOutcome)
    (formats : List String) :
    ∀ r, (handlerDownload attempt formats r).1 = true →
      ∃ pre f, (handlerDownload attempt formats r).2.2 = pre ++ [f] ∧
        attempt f = StratOutcome.ok ∧ (∀ g ∈ pre, attempt g ≠ StratOutcome.ok) ∧
        (handlerDownload attempt formats r).2.1.status = "success" := by
  induction formats with
  | nil =>
    intro r h
    exact absurd h (by simp [handlerDownload])
  | cons f rest ih =>
    intro r h
    by_cases hf : attempt f = StratOutcome.ok
    · rw [handlerDownload_cons_ok attempt f rest r hf]
      exact ⟨[], f, rfl, hf, by simp, rfl⟩
    · rw [handlerDownload_cons_ne_ok attempt f rest r hf] at h ⊢
      obtain ⟨pre, g, he, hok, hpre, hst⟩ := ih _ h
      refine ⟨f :: pre, g, by simp [he], hok, ?_, hst⟩
      intro x hx
      rcases List.mem_cons.mp hx with rfl | hx
      · exact hf
      · exact hpre x hx

/-- When no strategy in the chain succeeds, the whole chain is attempted,
the run reports failure and the result status is `'failed'`. -/
theorem handlerDownload_exhausted (attempt : String → StratOutcome)
    (formats : List String) :
    ∀ r, (∀ f ∈ formats, attempt f ≠ StratOutcome.ok) →
      (handlerDownload attempt formats r).1 = false ∧
        (handlerDownload attempt formats r).2.1.status = "failed" ∧
        (handlerDownload attempt formats r).2.2 = formats := by
  induction formats with
  | nil => intro r _; exact ⟨rfl, rfl, rfl⟩
  | cons f rest ih =>
    intro r h
    have hf : attempt f ≠ StratOutcome.ok := h f (by simp)
    rw [handlerDownload_cons_ne_ok attempt f rest r hf]
    obtain ⟨h1, h2, h3⟩ := ih _ (fun g hg => h g (List.mem_cons_of_mem f hg))
    exact ⟨h1, h2, by simp [h3]⟩

/-- The final `error_message` is obtained by folding the attempted
outcomes over the initial message, timeouts and exceptions overwriting
it and ordinary non-zero exits leaving it unchanged. -/
theorem handlerDownload_errorMessage (attempt : String → StratOutcome)
    (formats : List String) :
    ∀ r, (handlerDownload attempt formats r).2.1.errorMessage
      = lastMsgFold r.errorMessage ((handlerDownload attempt formats r).2.2.map attempt) := by
  induction formats with
  | nil => intro r; rfl
  | cons f rest ih =>
    intro r
    by_cases hf : attempt f = StratOutcome.ok
    · rw [handlerDownload_cons_ok attempt f rest r hf]
      simp [lastMsgFold, hf]
    · rw [handlerDownload_cons_ne_ok attempt f rest r hf]
      simp only [List.map_cons]
      rw [ih]
      cases ho : attempt f <;> simp [applyOutcome, lastMsgFold]

/-- When the run reports failure, the entire chain was attempted, every
strategy in it failed, and the result status is `'failed'` — failure
only ever arises from exhaustion, never from giving up early. -/
theorem handlerDownload_failed_exhausts (attempt : String → StratOutcome)
    (formats : List String) :
    ∀ r, (handlerDownload attempt formats r).1 = false →
      (∀ f ∈ formats, attempt f ≠ StratOutcome.ok) ∧
        (handlerDownload attempt formats r).2.2 = formats ∧
        (handlerDownload attempt formats r).2.1.status = "failed" := by
  induction formats with
  | nil => intro r _; exact ⟨by simp, rfl, rfl⟩
  | cons f rest ih =>
    intro r h
    by_cases hf : attempt f = StratOutcome.ok
    · rw [handlerDownload_cons_ok attempt f rest r hf] at h
      exact absurd h (by simp)
    · rw [handlerDownload_cons_ne_ok attempt f rest r hf] at h ⊢
      obtain ⟨hall, htr, hst⟩ := ih _ h
      refine ⟨?_, by simp [htr], hst⟩
      intro g hg
      rcases List.mem_cons.mp hg with rfl | hg
      · exact hf
      · exact hall g hg

/-- The run reports success exactly when the chain contains a strategy
whose subprocess exits 0: a chain containing a succeeding strategy
cannot fail. -/
theorem handlerDownload_flag_iff (attempt : String → StratOutcome)
    (formats : List String) (r : DownloadResult) :
    (handlerDownload attempt formats r).1 = true ↔
      ∃ f ∈ formats, attempt f = StratOutcome.ok := by
  constructor
  · intro h
    obtain ⟨pre, f, he, hok, -, -⟩ := handlerDownload_success_shape attempt formats r h
    refine ⟨f, ?_, hok⟩
    have ht := handlerDownload_attempted_take attempt formats r
    have hmem : f ∈ (handlerDownload attempt formats r).2.2 := by simp [he]
    rw [ht] at hmem
    exact List.take_subset _ _ hmem
  · rintro ⟨f, hf, hok⟩
    by_contra hne
    have hfalse : (handlerDownload attempt formats r).1 = false := by
      cases hh : (handlerDownload attempt formats r).1
      · rfl
      · exact absurd hh hne
    obtain ⟨hall, -, -⟩ := handlerDownload_failed_exhausts attempt formats r hfalse
    exact hall f hf hok

/-- Claim C2 (counterexample): with the first bilibili format failing with
reason `E1` and the remaining two with reason `E2`, the whole chain is
attempted and exhausted, but the task's final error message is `E2`
alone — strategy `E1`'s failure reason is absent, so the final message is
NOT the concatenation of every attempted strategy's failure reason. -/
theorem C2_counterexample :
    ((handlerDownload
          (fun f => if f == "100024+30280" then StratOutcome.exn "E1" else StratOutcome.exn "E2")
          bilibiliFormats (initResult [] "bilibili")).2.2 = bilibiliFormats) ∧
      ((handlerDownload
          (fun f => if f == "100024+30280" then StratOutcome.exn "E1" else StratOutcome.exn "E2")
          bilibiliFormats (initResult [] "bilibili")).2.1.errorMessage = "E2") ∧
      strContains ("E1".toList) (String.toList "E2") = false := by
  decide

/-- Claim C2 (amended): strategies are attempted strictly in the
profile's declared order (the attempted trace is an initial segment of
the chain); the run succeeds IF AND ONLY IF the chain contains a
strategy whose subprocess exits 0, in which case the trace ends at the
first such strategy, the result status is `'success'` and the remaining
strategies are skipped; a failed run implies the ENTIRE chain was
attempted with every strategy failing and status `'failed'`, and
conversely an all-failing chain is fully attempted and fails — failure
arises only from exhaustion; and the final error message is the message
of the LAST attempted strategy that timed out or raised an exception
(the initial message if none did — ordinary non-zero exits contribute
nothing), not the concatenation of all attempted strategies' failure
reasons. -/
theorem C2_chain_order_and_error (attempt : String → StratOutcome)
    (formats : List String) (r : DownloadResult) :
    ((handlerDownload attempt formats r).2.2
        = formats.take (handlerDownload attempt formats r).2.2.length) ∧
      ((handlerDownload attempt formats r).1 = true →
        ∃ pre f, (handlerDownload attempt formats r).2.2 = pre ++ [f] ∧
          attempt f = StratOutcome.ok ∧ (∀ g ∈ pre, attempt g ≠ StratOutcome.ok) ∧
          (handlerDownload attempt formats r).2.1.status = "success") ∧
      ((∀ f ∈ formats, attempt f ≠ StratOutcome.ok) →
        (handlerDownload attempt formats r).1 = false ∧
          (handlerDownload attempt formats r).2.1.status = "failed" ∧
          (handlerDownload attempt formats r).2.2 = formats) ∧
      ((handlerDownload attempt formats r).2.1.errorMessage
        = lastMsgFold r.errorMessage ((handlerDownload attempt formats r).2.2.map attempt)) ∧
      ((handlerDownload attempt formats r).1 = true ↔
        ∃ f ∈ formats, attempt f = StratOutcome.ok) ∧
      ((handlerDownload attempt formats r).1 = false →
        (∀ f ∈ formats, attempt f ≠ StratOutcome.ok) ∧
          (handlerDownload attempt formats r).2.2 = formats ∧
          (handlerDownload attempt formats r).2.1.status = "failed") :=
  ⟨handlerDownload_attempted_take attempt formats r,
   handlerDownload_success_shape attempt formats r,
   handlerDownload_exhausted attempt formats r,
   handlerDownload_errorMessage attempt formats r,
   handlerDownload_flag_iff attempt formats r,
   handlerDownload_failed_exhausts attempt formats r⟩

/-- Claim C2 (witness): an all-failing sohu chain is fully attempted,
reports failure, and ends with status `'failed'`; a sohu chain whose
second format exits 0 necessarily reports success. -/
theorem C2_witness :
    ((handlerDownload (fun _ => StratOutcome.exn "E") sohuFormats (initResult [] "sohu")).1
          = false ∧
        (handlerDownload (fun _ => StratOutcome.exn "E") sohuFormats
            (initResult [] "sohu")).2.1.status = "failed" ∧
        (handlerDownload (fun _ => StratOutcome.exn "E") sohuFormats
            (initResult [] "sohu")).2.2 = sohuFormats) ∧
      (handlerDownload (fun f => if f == "worst" then StratOutcome.ok else StratOutcome.fail "no")
          sohuFormats (initResult [] "sohu")).1 = true :=
  ⟨(C2_chain_order_and_error (fun _ => StratOutcome.exn "E") sohuFormats
      (initResult [] "sohu")).2.2.1 (by decide),
   (C2_chain_order_and_error
        (fun f => if f == "worst" then StratOutcome.ok else StratOutcome.fail "no")
        sohuFormats (initResult [] "sohu")).2.2.2.2.1.mpr ⟨"worst", by decide, by decide⟩⟩

/-- Claim C5 (confirmed): given two files sharing a logical identity, one
video-only variant and one audio-only variant, and a merge subprocess
that succeeds, reconciliation performs exactly one merge, producing
exactly one merged output file and deleting both source files; given
only one element of the pair, no merge is attempted and the file is left
untouched. -/
theorem C5_pair_reconciliation (mergeOk : Str → Str → Bool) (v a : Str)
    (hv : isVideoVariant v = true) (hva : isAudioVariant v = false)
    (ha : isAudioVariant a = true) (hav : isVideoVariant a = false)
    (hlv : isLogName v = false) (hla : isLogName a = false)
    (hbase : baseOf v = baseOf a) (hne : v ≠ a)
    (hok : mergeOk v a = true) :
    postProcess mergeOk [v, a] = ([mergedName (baseOf v)], [(v, a)]) ∧
      postProcess mergeOk [v] = ([v], []) ∧
      postProcess mergeOk [a] = ([a], []) := by
  refine ⟨?_, ?_, ?_⟩
  · simp [postProcess, hv, ha, hva, hav, hlv, hla, hok, hbase, hne, Ne.symm hne]
  · simp [postProcess, hv, hva, hlv]
  · simp [postProcess, ha, hav, hla]

/-- Claim C5 (witness): the pair `clip.f137.mp4` / `clip.f140.m4a` merges
into exactly `clip_merged.mp4` with both sources deleted, and each file
alone is left untouched with no merge attempted. -/
theorem C5_witness :
    postProcess (fun _ _ => true) ["clip.f137.mp4".toList, "clip.f140.m4a".toList]
        = ([mergedName (baseOf ("clip.f137.mp4".toList))],
           [("clip.f137.mp4".toList, "clip.f140.m4a".toList)]) ∧
      postProcess (fun _ _ => true) ["clip.f137.mp4".toList]
        = (["clip.f137.mp4".toList], []) ∧
      postProcess (fun _ _ => true) ["clip.f140.m4a".toList]
        = (["clip.f140.m4a".toList], []) :=
  C5_pair_reconciliation (fun _ _ => true) ("clip.f137.mp4".toList) ("clip.f140.m4a".toList)
    (by decide) (by decide) (by decide) (by decide) (by decide) (by decide) (by decide)
    (by decide) (by decide)

/-- Claim C6 (witness): a probe reporting a 32 kbps bitrate flags the file
for repair, matching the characterization. -/
theorem C6_witness : verifyDecide 0 ("aac,44100,2,32000".toList) = true :=
  (C6_flag_characterization 0 ("aac,44100,2,32000".toList)).mpr
    ⟨rfl, by decide, by decide, Or.inr (Or.inl ⟨32000, by decide, by decide⟩)⟩

/-- Claim C7 (witness): at a concrete extraction result the failed direct
stream is followed by a fallback on the resolved media URL. -/
theorem C7_witness :
    downloadFileTrace false (bilibiliVideoInfo ("t".toList) ("https://m.example/v.mp4".toList))
      = [FetchStep.direct ("https://m.example/v.mp4".toList),
         FetchStep.ytdlpFallback ("https://m.example/v.mp4".toList)] :=
  (C7_fallback_uses_media_url []
      (bilibiliVideoInfo ("t".toList) ("https://m.example/v.mp4".toList))).1
